import Mathlib

/-!
Verification of the n8n-clone repository's RPC router and background
function against its specification.

The embedding covers:
* the tRPC `appRouter` in `src/trpc/routers/_app.ts` with its two
  procedures `getWorkflows` and `createWorkflow`;
* the Inngest dispatcher client (`inngest.send`) as an explicit
  state-and-failure model;
* the Inngest background function `execute` (registered for event
  `"execute/ai"`), which sequentially calls three AI providers via
  `step.ai.wrap` and aggregates their step records;
* the RPC procedures invoked by the front-end page `src/app/page.tsx`.
-/

namespace N8nClone

/-- An Inngest event: a string `name` and a structured payload `data`,
modelled as a key/value association list (the source publishes
`{ email: "test@gmail.com" }`). -/
structure InngestEvent where
  name : String
  data : List (String × String)
  deriving Repr, DecidableEq

/-- A persisted workflow record. The repository treats workflow records as
opaque (no fields are read or validated in-repo), so the record is
modelled as an opaque identifier. -/
structure Workflow where
  id : Nat
  deriving Repr, DecidableEq

/-- Server-side state visible to the embedded code: the persisted workflow
collection (Prisma's `workflow` table, in storage order), the list of
`inngest.send` calls attempted so far, and the list of events actually
accepted by the dispatcher. -/
structure ServerState where
  workflows : List Workflow
  sendAttempts : List InngestEvent
  publishedEvents : List InngestEvent
  deriving Repr, DecidableEq

/-- The value returned by the `createWorkflow` mutation. -/
structure MutationResult where
  success : Bool
  message : String
  deriving Repr, DecidableEq

/-- The fixed event published by `createWorkflow`:
`{ name: "test/hello.world", data: { email: "test@gmail.com" } }`
(`_app.ts` lines 13-16). It is a literal in the source: it does not
depend on any input, caller or state. -/
def createWorkflowEvent : InngestEvent :=
  { name := "test/hello.world", data := [("email", "test@gmail.com")] }

/-- One call to `inngest.send ev`. The dispatcher is external, so whether
the call throws is an environment parameter `fail`: `some e` means the
call throws error `e`, `none` means it succeeds. The attempted send is
always recorded; the event joins `publishedEvents` only on success. -/
def inngestSend (fail : Option String) (ev : InngestEvent) (st : ServerState) :
    ServerState × Except String Unit :=
  match fail with
  | some e => ({ st with sendAttempts := st.sendAttempts ++ [ev] }, .error e)
  | none =>
      ({ st with
          sendAttempts := st.sendAttempts ++ [ev],
          publishedEvents := st.publishedEvents ++ [ev] }, .ok ())

/-- `prisma.workflow.findMany()`: returns the full persisted collection in
storage order. -/
def prismaWorkflowFindMany (st : ServerState) : List Workflow :=
  st.workflows

/-- The `getWorkflows` query (`_app.ts` lines 7-9):
`return prisma.workflow.findMany()`. -/
def getWorkflows (st : ServerState) : List Workflow :=
  prismaWorkflowFindMany st

/-- The `createWorkflow` mutation (`_app.ts` lines 12-19):
`await inngest.send({ name: "test/hello.world", data: { email: "test@gmail.com" } });`
then `return { success: true, message: "Workflow creation triggered" }`.
There is no try/catch: a throwing send propagates as the mutation's
error. -/
def createWorkflow (fail : Option String) (st : ServerState) :
    ServerState × Except String MutationResult :=
  let (st1, r) := inngestSend fail createWorkflowEvent st
  match r with
  | .error e => (st1, .error e)
  | .ok () => (st1, .ok { success := true, message := "Workflow creation triggered" })

/-- Whether a tRPC procedure is a query or a mutation. -/
inductive ProcKind where
  | query
  | mutation
  deriving Repr, DecidableEq

/-- A declared tRPC procedure: its name and kind. -/
structure Procedure where
  name : String
  kind : ProcKind
  deriving Repr, DecidableEq

/-- The procedures declared by `appRouter` in `_app.ts`:
`getWorkflows` (a `protectedProcedure.query`) and `createWorkflow`
(a `protectedProcedure.mutation`), and nothing else. -/
def appRouter : List Procedure :=
  [ { name := "getWorkflows", kind := .query },
    { name := "createWorkflow", kind := .mutation } ]

/-- The RPC procedures invoked by the front-end page `src/app/page.tsx`:
`useQuery(trpc.getWorkflows.queryOptions())`,
`useMutation(trpc.testAi.mutationOptions(...))`, and
`useMutation(trpc.createWorkflow.mutationOptions(...))`. -/
def pageInvokedProcedures : List (String × ProcKind) :=
  [ ("getWorkflows", .query),
    ("testAi", .mutation),
    ("createWorkflow", .mutation) ]

/-- A registered Inngest background function: its function id and the
event name it is registered against. -/
structure InngestFunction where
  id : String
  eventName : String
  deriving Repr, DecidableEq

/-- The registration of the `execute` background function:
`inngest.createFunction({ id: "execute-ai" }, { event: "execute/ai" }, ...)`. -/
def executeRegistration : InngestFunction :=
  { id := "execute-ai", eventName := "execute/ai" }

/-- All background functions registered in the repository's source: only
`execute`. -/
def registeredFunctions : List InngestFunction :=
  [executeRegistration]

/-- The events published by the RPC router's mutation(s): `createWorkflow`
is the only mutation that publishes, and it publishes only
`createWorkflowEvent`. -/
def routerPublishedEvents : List InngestEvent :=
  [createWorkflowEvent]

/-- The argument object passed to `generateText` inside one wrapped step:
the provider factory used (`google`, `openai` or `antropic` in the
source), the model name passed to it, and the `system` and `prompt`
strings. -/
structure GenerateTextArgs where
  provider : String
  modelName : String
  system : String
  prompt : String
  deriving Repr, DecidableEq

/-- One `step.ai.wrap` invocation as it appears in the source: the step id
(first argument) and the `generateText` arguments (third argument). -/
structure AiCall where
  stepId : String
  args : GenerateTextArgs
  deriving Repr, DecidableEq

/-- A step record produced by a provider call, opaque to this codebase
(owned by the Inngest runtime's bookkeeping). -/
structure StepRecord where
  content : String
  deriving Repr, DecidableEq

/-- The first wrapped call of `execute`:
`step.ai.wrap("gemini-generate-text", generateText, { model: google("gemini-2.5-flash"), system: ..., prompt: ... })`. -/
def geminiCall : AiCall :=
  { stepId := "gemini-generate-text",
    args := { provider := "google", modelName := "gemini-2.5-flash",
              system := "You are a helpful assistant.",
              prompt := "What is 2+27?" } }

/-- The second wrapped call of `execute`:
`step.ai.wrap("openai-generate-text", generateText, { model: openai("gpt-4"), system: ..., prompt: ... })`. -/
def openaiCall : AiCall :=
  { stepId := "openai-generate-text",
    args := { provider := "openai", modelName := "gpt-4",
              system := "You are a helpful assistant.",
              prompt := "What is 2+27?" } }

/-- The third wrapped call of `execute`:
`step.ai.wrap("anthropic-generate-text", generateText, { model: antropic("claude-3-5-haiku-latest"), system: ..., prompt: ... })`. -/
def anthropicCall : AiCall :=
  { stepId := "anthropic-generate-text",
    args := { provider := "anthropic", modelName := "claude-3-5-haiku-latest",
              system := "You are a helpful assistant.",
              prompt := "What is 2+27?" } }

/-- The environment of external provider outcomes: for each step id, what
its wrapped provider call returns when actually performed — either the
destructured `steps` records (`.ok`) or a thrown error (`.error`). -/
def StepOracle : Type :=
  String → Except String (List StepRecord)

/-- Performing one `await step.ai.wrap(...)`: the call is appended to the
trace of performed calls and its outcome is read from the oracle. -/
def stepAiWrap (oracle : StepOracle) (c : AiCall) (trace : List AiCall) :
    List AiCall × Except String (List StepRecord) :=
  (trace ++ [c], oracle c.stepId)

/-- The aggregate object returned by `execute` on success: exactly the
three named step-result groups. -/
structure ExecuteResult where
  geminiSteps : List StepRecord
  openaiSteps : List StepRecord
  anthropicSteps : List StepRecord
  deriving Repr, DecidableEq

/-- The handler body of the `execute` Inngest function (`inngest/functions`
source): three sequential awaited `step.ai.wrap` calls — gemini, then
openai, then anthropic — each destructuring `steps`, followed by
`return { geminiSteps, openaiSteps, anthropicSteps }`. The handler
destructures only `{ step }` from its argument: the triggering event's
`data` is received (parameter `eventData`) but never read. A throwing
call ends the handler there: the later calls are not performed and no
aggregate is returned. The returned pair is (trace of performed calls,
outcome). -/
def executeHandler (eventData : List (String × String)) (oracle : StepOracle) :
    List AiCall × Except String ExecuteResult :=
  let (t1, r1) := stepAiWrap oracle geminiCall []
  match r1 with
  | .error e => (t1, .error e)
  | .ok geminiSteps =>
    let (t2, r2) := stepAiWrap oracle openaiCall t1
    match r2 with
    | .error e => (t2, .error e)
    | .ok openaiSteps =>
      let (t3, r3) := stepAiWrap oracle anthropicCall t2
      match r3 with
      | .error e => (t3, .error e)
      | .ok anthropicSteps =>
          (t3, .ok { geminiSteps := geminiSteps, openaiSteps := openaiSteps,
                     anthropicSteps := anthropicSteps })

/-- The dispatcher's invocation of the repository's registered background
function on an event: if the event's name matches `execute`'s registered
event name, the handler runs on the event's data; otherwise no handler
runs. -/
def dispatchEvent (ev : InngestEvent) (oracle : StepOracle) :
    Option (List AiCall × Except String ExecuteResult) :=
  if ev.name = executeRegistration.eventName then
    some (executeHandler ev.data oracle)
  else
    none

/-- A sample provider-outcome environment in which every wrapped call
succeeds, with distinct step records per provider. -/
def sampleOracle : StepOracle := fun sid =>
  if sid = "gemini-generate-text" then .ok [{ content := "g" }]
  else if sid = "openai-generate-text" then .ok [{ content := "o" }]
  else .ok [{ content := "a" }]

/-- A sample provider-outcome environment in which every wrapped call
throws. -/
def failingOracle : StepOracle := fun _ => .error "provider down"

/-- An empty server state, used to instantiate universally quantified
statements. -/
def emptyState : ServerState :=
  { workflows := [], sendAttempts := [], publishedEvents := [] }

/-- C1: whenever the `createWorkflow` mutation resolves (i.e. the
`inngest.send` call did not throw), the returned value is exactly
`{ success: true, message: "Workflow creation triggered" }`. -/
theorem createWorkflow_returns_success (fail : Option String) (st : ServerState)
    (r : MutationResult) (h : (createWorkflow fail st).2 = .ok r) :
    r = { success := true, message := "Workflow creation triggered" } := by
  cases fail with
  | some e => simp [createWorkflow, inngestSend] at h
  | none =>
      simp [createWorkflow, inngestSend] at h
      exact h.symm

/-- Witness for C1 at a concrete input: the empty state with a
non-throwing dispatcher. -/
theorem createWorkflow_returns_success_witness :
    ({ success := true, message := "Workflow creation triggered" } : MutationResult) =
      { success := true, message := "Workflow creation triggered" } :=
  createWorkflow_returns_success none emptyState
    { success := true, message := "Workflow creation triggered" } rfl

/-- C2: for every storage state, `getWorkflows` returns exactly the full
workflow collection currently in storage, in storage order, with no
filtering, pagination or transformation of records. -/
theorem getWorkflows_returns_storage (st : ServerState) :
    getWorkflows st = st.workflows :=
  rfl

/-- C3: every invocation of `createWorkflow` attempts exactly one
`inngest.send` call, and the event sent is the constant
`createWorkflowEvent` with name `"test/hello.world"` and payload
`{ email: "test@gmail.com" }`, regardless of the state or the
dispatcher's behaviour. -/
theorem createWorkflow_publishes_one_fixed_event (fail : Option String)
    (st : ServerState) :
    (createWorkflow fail st).1.sendAttempts = st.sendAttempts ++ [createWorkflowEvent] ∧
    createWorkflowEvent.name = "test/hello.world" ∧
    createWorkflowEvent.data = [("email", "test@gmail.com")] := by
  refine ⟨?_, rfl, rfl⟩
  cases fail <;> rfl

/-- C4: if the `inngest.send` call inside `createWorkflow` throws, the
mutation propagates exactly that error, makes no further send attempt
(no retry), and does not return the success object. -/
theorem createWorkflow_propagates_publish_error (e : String) (st : ServerState) :
    createWorkflow (some e) st =
      ({ st with sendAttempts := st.sendAttempts ++ [createWorkflowEvent] }, .error e) :=
  rfl

/-- C5: when all three provider calls succeed, `execute` performs the
gemini, openai and anthropic calls sequentially in that fixed order,
each with the same system instruction and prompt but a different
provider and model, and returns the aggregate with exactly the three
groups `geminiSteps`, `openaiSteps`, `anthropicSteps` holding each
call's step records. -/
theorem execute_success_sequence (oracle : StepOracle) (g o a : List StepRecord)
    (d : List (String × String))
    (hg : oracle "gemini-generate-text" = .ok g)
    (ho : oracle "openai-generate-text" = .ok o)
    (ha : oracle "anthropic-generate-text" = .ok a) :
    executeHandler d oracle =
      ([geminiCall, openaiCall, anthropicCall],
        .ok { geminiSteps := g, openaiSteps := o, anthropicSteps := a }) ∧
    geminiCall.args.system = openaiCall.args.system ∧
    openaiCall.args.system = anthropicCall.args.system ∧
    geminiCall.args.prompt = openaiCall.args.prompt ∧
    openaiCall.args.prompt = anthropicCall.args.prompt ∧
    geminiCall.args.provider ≠ openaiCall.args.provider ∧
    geminiCall.args.provider ≠ anthropicCall.args.provider ∧
    openaiCall.args.provider ≠ anthropicCall.args.provider ∧
    geminiCall.args.modelName ≠ openaiCall.args.modelName ∧
    geminiCall.args.modelName ≠ anthropicCall.args.modelName ∧
    openaiCall.args.modelName ≠ anthropicCall.args.modelName := by
  refine ⟨?_, rfl, rfl, rfl, rfl, by decide, by decide, by decide, by decide,
    by decide, by decide⟩
  simp [executeHandler, stepAiWrap, geminiCall, openaiCall, anthropicCall, hg, ho, ha]

/-- Witness for C5 at a concrete input: the all-succeeding oracle. -/
theorem execute_success_sequence_witness :
    executeHandler [] sampleOracle =
      ([geminiCall, openaiCall, anthropicCall],
        .ok { geminiSteps := [{ content := "g" }], openaiSteps := [{ content := "o" }],
              anthropicSteps := [{ content := "a" }] }) :=
  (execute_success_sequence sampleOracle [{ content := "g" }] [{ content := "o" }]
    [{ content := "a" }] [] rfl rfl rfl).1

/-- C6: if one of the three provider calls fails, the calls after it in
the sequence are not performed (they do not appear in the trace) and
the aggregate result is not returned — the handler ends with that
error; no compensating or recovery logic runs. -/
theorem execute_failure_aborts (oracle : StepOracle) (e : String)
    (d : List (String × String)) :
    (oracle "gemini-generate-text" = .error e →
      executeHandler d oracle = ([geminiCall], .error e)) ∧
    (∀ g, oracle "gemini-generate-text" = .ok g →
      oracle "openai-generate-text" = .error e →
      executeHandler d oracle = ([geminiCall, openaiCall], .error e)) ∧
    (∀ g o, oracle "gemini-generate-text" = .ok g →
      oracle "openai-generate-text" = .ok o →
      oracle "anthropic-generate-text" = .error e →
      executeHandler d oracle = ([geminiCall, openaiCall, anthropicCall], .error e)) := by
  refine ⟨fun h1 => ?_, fun g h1 h2 => ?_, fun g o h1 h2 h3 => ?_⟩ <;>
    simp [executeHandler, stepAiWrap, geminiCall, openaiCall, anthropicCall, *]

/-- Witness for C6 at a concrete input: the oracle whose first call
already throws, so only the gemini call appears in the trace. -/
theorem execute_failure_aborts_witness :
    executeHandler [] failingOracle = ([geminiCall], .error "provider down") :=
  (execute_failure_aborts failingOracle "provider down" []).1 rfl

/-- C7 counterexample: the event published by the router's mutation is in
`routerPublishedEvents`, yet its name matches no registered background
function's event name — the dispatcher has no matching function to
invoke for it. -/
theorem createWorkflowEvent_matches_no_function :
    createWorkflowEvent ∈ routerPublishedEvents ∧
    (registeredFunctions.map InngestFunction.eventName).contains
      createWorkflowEvent.name = false := by
  decide

/-- C7 amended: the router's mutation publishes only the event named
`"test/hello.world"`, while the only background function registered in
the repository listens for `"execute/ai"`; the published event's name
differs from the registered event name. -/
theorem router_event_unhandled :
    routerPublishedEvents = [createWorkflowEvent] ∧
    createWorkflowEvent.name = "test/hello.world" ∧
    registeredFunctions = [executeRegistration] ∧
    executeRegistration.eventName = "execute/ai" ∧
    (createWorkflowEvent.name == executeRegistration.eventName) = false := by
  refine ⟨rfl, rfl, rfl, rfl, by decide⟩

/-- C8 counterexample: the front-end page invokes the mutation `testAi`,
and `testAi` is not among the names declared by `appRouter`. -/
theorem page_invokes_undeclared_procedure :
    ("testAi", ProcKind.mutation) ∈ pageInvokedProcedures ∧
    (appRouter.map Procedure.name).contains "testAi" = false := by
  decide

/-- C8 amended: the router declares exactly the two procedures
`getWorkflows` (query) and `createWorkflow` (mutation), but the
front-end page additionally invokes a procedure `testAi` that the
router does not declare. -/
theorem appRouter_two_procedures_page_extra :
    appRouter = [{ name := "getWorkflows", kind := .query },
                 { name := "createWorkflow", kind := .mutation }] ∧
    pageInvokedProcedures.map Prod.fst = ["getWorkflows", "testAi", "createWorkflow"] ∧
    ("getWorkflows", ProcKind.query) ∈ pageInvokedProcedures ∧
    ("createWorkflow", ProcKind.mutation) ∈ pageInvokedProcedures ∧
    (appRouter.map Procedure.name).contains "testAi" = false := by
  refine ⟨rfl, rfl, by decide, by decide, by decide⟩

/-- C9: `createWorkflow` neither reads nor writes the persisted workflow
collection: whatever the dispatcher does, the state after the mutation
has the same workflow collection, so `getWorkflows` returns the same
collection before and after; the only state change is to the event
streams. -/
theorem createWorkflow_frame_workflows (fail : Option String) (st : ServerState) :
    (createWorkflow fail st).1.workflows = st.workflows ∧
    getWorkflows (createWorkflow fail st).1 = getWorkflows st := by
  cases fail <;> exact ⟨rfl, rfl⟩

/-- C10: the background handler never reads the triggering event's
payload: any two events bearing the registered name `"execute/ai"` but
arbitrary (possibly different) data lead the dispatcher to the same
handler run — the same calls and the same outcome. -/
theorem execute_ignores_event_data (ev1 ev2 : InngestEvent) (oracle : StepOracle)
    (h1 : ev1.name = executeRegistration.eventName)
    (h2 : ev2.name = executeRegistration.eventName) :
    dispatchEvent ev1 oracle = dispatchEvent ev2 oracle ∧
    dispatchEvent ev1 oracle = some (executeHandler ev1.data oracle) ∧
    executeHandler ev1.data oracle = executeHandler ev2.data oracle := by
  have hbody : executeHandler ev1.data oracle = executeHandler ev2.data oracle := rfl
  refine ⟨?_, ?_, hbody⟩
  · simp [dispatchEvent, h1, h2, hbody]
  · simp [dispatchEvent, h1]

/-- Witness for C10 at concrete inputs: two events with the registered
name and different payloads. -/
theorem execute_ignores_event_data_witness :
    dispatchEvent { name := "execute/ai", data := [("x", "1")] } sampleOracle =
      dispatchEvent { name := "execute/ai", data := [("x", "2")] } sampleOracle :=
  (execute_ignores_event_data { name := "execute/ai", data := [("x", "1")] }
    { name := "execute/ai", data := [("x", "2")] } sampleOracle rfl rfl).1

end N8nClone
